import Mathlib

set_option maxRecDepth 8192

/-
  A shallow embedding of the windowed data cache (src/model.rs), the
  interactive table-view controller (src/tableview.rs) and the view router
  (src/gui.rs) of the cdir repository.

  Modelling conventions:
  * Rust machine integers (usize, u16, i64) are modelled as Nat / Int.
    Arithmetic is modelled with Rust's checked (overflow-panicking)
    semantics: a subtraction that would underflow is a panic.  The cast
    `as u16` truncates and is modelled as `% 65536`.  (For the inputs the
    theorems below speak about, values are far below 2^63, where checked
    and release two's-complement semantics agree on every observable.)
  * A Rust panic (arithmetic underflow, out-of-bounds slice or index) is
    modelled by returning `none`; every function that can panic returns
    an `Option`.
  * The fallible backing store (`ListFunction`, returning
    `Result<Vec<T>, rusqlite::Error>`) is modelled as a pure function
    into `Except String (List T)` and is passed explicitly, so that a
    call can be counted: `DataViewModel.update` returns, besides the new
    state and the `changed` flag, the number of backing-store invocations
    it performed (0 or 1).
  * Purely visual state (colors, column names, the rowify strategy, the
    terminal) is omitted: it is read but never branches into the cache or
    navigation logic.  The shared `Rc<RefCell<bool>>` toggle is modelled
    by threading a `Bool` through the event loop.
  * Of the crossterm event stream, key events are modelled (mouse/resize
    events only trigger a redraw in the source).
-/

namespace Cdir

/-- Modulus of the Rust `u16` type. -/
def U16 : Nat := 65536

/-- Checked usize/u16 subtraction: Rust `a - b`, panicking (none) on underflow. -/
def checkedSub (a b : Nat) : Option Nat :=
  if b ≤ a then some (a - b) else none

/-- Rust slice `xs[lo..hi]`: panics (none) unless `lo ≤ hi ≤ xs.length`. -/
def checkedSlice {T : Type} (xs : List T) (lo hi : Nat) : Option (List T) :=
  if lo ≤ hi ∧ hi ≤ xs.length then some ((xs.drop lo).take (hi - lo)) else none

/-- Rust `Vec` index `xs[i]`: panics (none) when out of bounds. -/
def checkedIndex {T : Type} (xs : List T) (i : Nat) : Option T :=
  xs.get? i

/-- The backing-store list function
`(start, count, filter) -> Result<Vec<T>, rusqlite::Error>` of model.rs. -/
def ListFn (T : Type) : Type := Nat → Nat → String → Except String (List T)

/-- The cache state of `DataViewModel` in model.rs: a window
`[first, first+length)` of the filtered result set.  `length` is a `u16`
in the source; `first` is a `usize`. -/
structure DataViewModel (T : Type) where
  entries : Option (List T)
  first : Nat
  length : Nat
  filter : String
deriving DecidableEq

namespace DataViewModel

/-- `DataViewModel::new`: the empty cache. -/
def new (T : Type) : DataViewModel T :=
  { entries := none, first := 0, length := 0, filter := "" }

/-- `DataViewModel::is_a_subset_of` (model.rs lines 69-74). -/
def is_a_subset_of {T : Type} (m : DataViewModel T) (first length : Nat)
    (text : String) : Bool :=
  m.entries.isSome && decide (m.first ≤ first)
    && decide (first + length ≤ m.first + m.length)
    && (m.filter == text)

/-- `DataViewModel::update_into_subset` (model.rs lines 86-97).  When the
request is a subset, the source computes `offset = self.first - first`
(a usize subtraction) and takes the slice `entries[offset..length]`;
`none` models the panic of either operation. -/
def update_into_subset {T : Type} (m : DataViewModel T) (first length : Nat)
    (text : String) : Option (DataViewModel T × Bool) :=
  if m.is_a_subset_of first length text then
    match m.entries with
    | some es =>
      (checkedSub m.first first).bind fun offset =>
        (checkedSlice es offset length).map fun s =>
          ({ m with entries := some s, first := first, length := length }, true)
    | none => some ({ m with first := first, length := length }, true)
  else
    some (m, false)

/-- `DataViewModel::update` (model.rs lines 110-159).  Returns
`(state, changed, storeCalls)`; `none` models a panic.  `filter` is left
unchanged by the forced clear, exactly as in the source. -/
def update {T : Type} (listFn : ListFn T) (m : DataViewModel T)
    (first length : Nat) (text : String) (force : Bool) :
    Option (DataViewModel T × Bool × Nat) :=
  match m.update_into_subset first length text with
  | none => none
  | some (m1, true) => some (m1, false, 0)
  | some (_, false) =>
    match listFn first length text with
    | Except.error _ => some (m, false, 1)
    | Except.ok new_entries =>
      let new_length := new_entries.length
      if new_length ≠ length ∧ m.is_a_subset_of first (new_length % U16) text then
        some (m, false, 1)
      else if 0 < new_length then
        some ({ entries := some new_entries, first := first,
                length := new_length % U16, filter := text }, true, 1)
      else if force then
        some ({ m with entries := none, first := 0, length := 0 }, true, 1)
      else
        some (m, false, 1)

/-- `DataViewModel::update_to_offset` (model.rs lines 171-179): clamp
`first + offset` at 0 and delegate to `update` with `force = false`. -/
def update_to_offset {T : Type} (listFn : ListFn T) (m : DataViewModel T)
    (offset : Int) (length : Nat) (text : String) :
    Option (DataViewModel T × Bool × Nat) :=
  let first : Nat :=
    if (m.first : Int) + offset < 0 then 0 else ((m.first : Int) + offset).toNat
  m.update listFn first length text false

end DataViewModel

/-- The terminal outcomes of a view's event loop (`GuiResult` in
tableview.rs). -/
inductive GuiResult
  | quit
  | print (s : String)
  | next
deriving DecidableEq

/-- A logical key event, covering the `Event::Key` arm of the match in
`TableView::run` (tableview.rs lines 96-158).  `ctrl` on `char` means the
modifiers are exactly CONTROL; `shift` on the movement keys is the
SHIFT modifier. -/
inductive KeyEvent
  | enter
  | home
  | down (shift : Bool)
  | up (shift : Bool)
  | pageDown (shift : Bool)
  | pageUp (shift : Bool)
  | tab
  | esc
  | backspace
  | char (c : Char) (ctrl : Bool)
  | otherKey
deriving DecidableEq

/-- `JUMP_OFFSET` in tableview.rs. -/
def JUMP_OFFSET : Nat := 10

/-- The navigation state of `TableView` in tableview.rs.  `table_state`
is the selected row of the ratatui `TableState` (`selected_cell().0`;
the column is always 0 in this program).  `table_rows_count` is a `u16`. -/
structure TableView (T : Type) where
  data_model : DataViewModel T
  table_state : Option Nat
  table_rows_count : Nat
  search_string : String
deriving DecidableEq

namespace TableView

/-- `TableView::handle_chosen` (tableview.rs lines 175-185).  The outer
`Option` is the panic of the vector index `items[row]`; the inner one is
the chosen string (`None` meaning no data or no selected row). -/
def handle_chosen {T : Type} (stringify : T → String) (tv : TableView T) :
    Option (Option String) :=
  match tv.data_model.entries with
  | some items =>
    match tv.table_state with
    | some row =>
      match checkedIndex items row with
      | some e => some (some (stringify e))
      | none => none
    | none => some none
  | none => some none

/-- `TableView::handle_down` (tableview.rs lines 187-219).  Besides the
new state it returns whether `update_to_offset` was invoked; `none`
models a panic (of `table_rows_count - 1`, of `length - 1`, or inside
`update`). -/
def handle_down {T : Type} (listFn : ListFn T) (jump page : Bool)
    (tv : TableView T) : Option (TableView T × Bool) :=
  match tv.data_model.entries with
  | none => some (tv, false)
  | some _ =>
    match tv.table_state with
    | none => some (tv, false)
    | some current_row =>
      let offset0 := if jump then JUMP_OFFSET else 1
      let offset := if page then tv.table_rows_count else offset0
      match checkedSub tv.table_rows_count 1 with
      | none => none
      | some rm1 =>
        match (if current_row = rm1 ∨ page = true then
                 tv.data_model.update_to_offset listFn (offset : Int)
                   tv.table_rows_count tv.search_string
               else some (tv.data_model, false, 0)) with
        | none => none
        | some (dm, _, _) =>
          match (if dm.length ≤ current_row + offset then
                   checkedSub dm.length 1
                 else some (current_row + offset)) with
          | none => none
          | some next =>
            some ({ tv with data_model := dm, table_state := some next },
                  decide (current_row = rm1 ∨ page = true))

/-- `TableView::handle_up` (tableview.rs lines 221-253), instrumented
like `handle_down`. -/
def handle_up {T : Type} (listFn : ListFn T) (jump page : Bool)
    (tv : TableView T) : Option (TableView T × Bool) :=
  match tv.data_model.entries with
  | none => some (tv, false)
  | some _ =>
    match tv.table_state with
    | none => some (tv, false)
    | some current_row =>
      let offset0 := if jump then JUMP_OFFSET else 1
      let offset := if page then tv.table_rows_count else offset0
      match (if current_row = 0 ∨ page = true then
               tv.data_model.update_to_offset listFn (-(offset : Int))
                 tv.table_rows_count tv.search_string
             else some (tv.data_model, false, 0)) with
      | none => none
      | some (dm, _, _) =>
        let next1 : Int := (current_row : Int) - (offset : Int)
        let next : Nat := if next1 < 0 then 0 else next1.toNat
        some ({ tv with data_model := dm, table_state := some next },
              decide (current_row = 0 ∨ page = true))

/-- One key event of the loop body of `TableView::run` (tableview.rs
lines 96-158).  Returns the new view state, the new shared toggle, and
`some result` when the loop breaks; `none` models a panic. -/
def step {T : Type} (listFn : ListFn T) (stringify : T → String)
    (ev : KeyEvent) (tv : TableView T) (vs : Bool) :
    Option (TableView T × Bool × Option GuiResult) :=
  match ev with
  | KeyEvent.enter =>
    match tv.handle_chosen stringify with
    | none => none
    | some (some s) => some (tv, vs, some (GuiResult.print s))
    | some none => some (tv, vs, some GuiResult.quit)
  | KeyEvent.home =>
    match tv.data_model.update listFn 0 tv.table_rows_count tv.search_string true with
    | none => none
    | some (dm, _, _) =>
      some ({ tv with data_model := dm, table_state := some 0 }, vs, none)
  | KeyEvent.down sh =>
    match tv.handle_down listFn sh false with
    | none => none
    | some (tv1, _) => some (tv1, vs, none)
  | KeyEvent.up sh =>
    match tv.handle_up listFn sh false with
    | none => none
    | some (tv1, _) => some (tv1, vs, none)
  | KeyEvent.pageDown sh =>
    match tv.handle_down listFn sh true with
    | none => none
    | some (tv1, _) => some (tv1, vs, none)
  | KeyEvent.pageUp sh =>
    match tv.handle_up listFn sh true with
    | none => none
    | some (tv1, _) => some (tv1, vs, none)
  | KeyEvent.tab => some (tv, vs, some GuiResult.next)
  | KeyEvent.esc => some (tv, vs, some GuiResult.quit)
  | KeyEvent.backspace =>
    let s := tv.search_string.dropRight 1
    match tv.data_model.update listFn 0 tv.table_rows_count s true with
    | none => none
    | some (dm, _, _) =>
      some ({ tv with data_model := dm, search_string := s }, vs, none)
  | KeyEvent.char c ctrl =>
    if ctrl = false then
      let s := tv.search_string.push c
      match tv.data_model.update listFn 0 tv.table_rows_count s true with
      | none => none
      | some (dm, _, _) =>
        some ({ tv with data_model := dm, search_string := s }, vs, none)
    else if c = 'q' then some (tv, vs, some GuiResult.quit)
    else if c = 'a' then some (tv, !vs, none)
    else some (tv, vs, none)
  | KeyEvent.otherKey => some (tv, vs, none)

/-- `TableView::draw` (tableview.rs lines 255-291) restricted to its
state effects: recompute `table_rows_count` from the table area height
(`mainHeight - TABLE_HEADER_LENGTH`, a u16 subtraction), refetch when the
cached window length differs from it, and (from `render_table`, lines
327-330) select row 0 when nothing is selected and data is present. -/
def draw {T : Type} (mainHeight : Nat) (listFn : ListFn T) (tv : TableView T) :
    Option (TableView T) :=
  match checkedSub mainHeight 1 with
  | none => none
  | some rows =>
    let tv1 := { tv with table_rows_count := rows }
    match (if tv1.data_model.length ≠ rows then
             tv1.data_model.update listFn tv1.data_model.first rows
               tv1.search_string true
           else some (tv1.data_model, false, 0)) with
    | none => none
    | some (dm, _, _) =>
      let tv2 := { tv1 with data_model := dm }
      if tv2.table_state = none ∧ 0 < tv2.data_model.length then
        some { tv2 with table_state := some 0 }
      else
        some tv2

/-- The event loop of `TableView::run` (tableview.rs lines 93-172) over a
list of pending key events: handle one event, redraw, continue; on a
`break` return the result together with the unconsumed events.  `none`
models a panic or running out of events. -/
def runLoop {T : Type} (mainHeight : Nat) (listFn : ListFn T)
    (stringify : T → String) :
    List KeyEvent → TableView T → Bool →
    Option (TableView T × Bool × List KeyEvent × GuiResult)
  | [], _, _ => none
  | ev :: rest, tv, vs =>
    match tv.step listFn stringify ev vs with
    | none => none
    | some (tv1, vs1, some res) => some (tv1, vs1, rest, res)
    | some (tv1, vs1, none) =>
      match tv1.draw mainHeight listFn with
      | none => none
      | some tv2 => runLoop mainHeight listFn stringify rest tv2 vs1

/-- `TableView::run` (tableview.rs lines 88-173): select cell (0,0), draw
once, then run the event loop. -/
def run {T : Type} (mainHeight : Nat) (listFn : ListFn T)
    (stringify : T → String) (evs : List KeyEvent) (tv : TableView T)
    (vs : Bool) : Option (TableView T × Bool × List KeyEvent × GuiResult) :=
  let tv1 := { tv with table_state := some 0 }
  match tv1.draw mainHeight listFn with
  | none => none
  | some tv2 => runLoop mainHeight listFn stringify evs tv2 vs

end TableView

/-- The two views of gui.rs. -/
inductive View
  | history
  | shortcuts
deriving DecidableEq

/-- The router state of `Gui` in gui.rs.  `view_state` is the shared
`Rc<RefCell<bool>>` toggle. -/
structure Gui (H S : Type) where
  current_view : View
  history_view : TableView H
  shortcut_view : TableView S
  view_state : Bool
deriving DecidableEq

/-- `Gui::run` (gui.rs lines 142-163): dispatch the focused view's event
loop; on `Next` toggle the focused view and continue, on `Quit`/`Print`
stop.  `fuel` bounds the number of view dispatches; the events are
consumed across dispatches. -/
def Gui.runFuel {H S : Type} (mainHeight : Nat) (histFn : ListFn H)
    (histStr : H → String) (scFn : ListFn S) (scStr : S → String) :
    Nat → List KeyEvent → Gui H S → Option (Gui H S × Option String)
  | 0, _, _ => none
  | Nat.succ fuel, evs, g =>
    match g.current_view with
    | View.history =>
      match g.history_view.run mainHeight histFn histStr evs g.view_state with
      | none => none
      | some (tv, vs, rest, res) =>
        match res with
        | GuiResult.quit =>
          some ({ g with history_view := tv, view_state := vs }, none)
        | GuiResult.print s =>
          some ({ g with history_view := tv, view_state := vs }, some s)
        | GuiResult.next =>
          Gui.runFuel mainHeight histFn histStr scFn scStr fuel rest
            { g with history_view := tv, view_state := vs,
                     current_view := View.shortcuts }
    | View.shortcuts =>
      match g.shortcut_view.run mainHeight scFn scStr evs g.view_state with
      | none => none
      | some (tv, vs, rest, res) =>
        match res with
        | GuiResult.quit =>
          some ({ g with shortcut_view := tv, view_state := vs }, none)
        | GuiResult.print s =>
          some ({ g with shortcut_view := tv, view_state := vs }, some s)
        | GuiResult.next =>
          Gui.runFuel mainHeight histFn histStr scFn scStr fuel rest
            { g with shortcut_view := tv, view_state := vs,
                     current_view := View.history }

/-! Concrete instances used by the claim theorems below. -/

/-- A store that always succeeds with an empty page. -/
def fnEmpty : ListFn String := fun _ _ _ => Except.ok []

/-- A store that always fails; used where the store must not be reached
or where a failure is the point. -/
def fnFail : ListFn String := fun _ _ _ => Except.error ("boom")

/-- Scenario A cache of the spec: entries a,b,c at window 0..3, no filter. -/
def mC1 : DataViewModel String :=
  { entries := some ["a", "b", "c"], first := 0, length := 3, filter := "" }

/-- A cache whose window starts away from 0: entries p,q,r,s at 4..8. -/
def mC3 : DataViewModel String :=
  { entries := some ["p", "q", "r", "s"], first := 4, length := 4, filter := "f" }

/-- A two-entry cache at window 0..2, no filter. -/
def mC4 : DataViewModel String :=
  { entries := some ["a", "b"], first := 0, length := 2, filter := "" }

/-- A store that always succeeds with the two entries of `mC4`. -/
def fnC4 : ListFn String := fun _ _ _ => Except.ok ["a", "b"]

/-- The freshly constructed empty cache. -/
def mC6 : DataViewModel String := DataViewModel.new String

/-- A one-entry cache at window 0..1, no filter. -/
def mC5a : DataViewModel String :=
  { entries := some ["a"], first := 0, length := 1, filter := "" }

/-- A one-entry cache at window 0..1 fetched under filter a. -/
def mC5b : DataViewModel String :=
  { entries := some ["a"], first := 0, length := 1, filter := "a" }

/-- Controller at the bottom of a cached short page: three cached rows,
selection on row 2 (the last cached row), ten visible rows. -/
def tvC7 : TableView String :=
  { data_model := { entries := some ["a", "b", "c"], first := 0, length := 3, filter := "" },
    table_state := some 2, table_rows_count := 10, search_string := "" }

/-- Controller with three cached rows, selection on row 0, five visible
rows; a plain Down from here moves the selection without any store call. -/
def tvC7w : TableView String :=
  { data_model := { entries := some ["a", "b", "c"], first := 0, length := 3, filter := "" },
    table_state := some 0, table_rows_count := 5, search_string := "" }

/-- Controller with six cached rows filling the six visible rows,
selection on the last row; typing a character will shrink the result. -/
def tvC2 : TableView String :=
  { data_model :=
      { entries := some ["a", "b", "c", "d", "e", "f"], first := 0, length := 6, filter := "" },
    table_state := some 5, table_rows_count := 6, search_string := "" }

/-- A store with six rows unfiltered and a single row matching filter x. -/
def fnC2 : ListFn String := fun _ _ t =>
  if t = "x" then Except.ok ["ax"] else Except.ok ["a", "b", "c", "d", "e", "f"]

/-- The narrowed controller state reached from `tvC2` by typing x: one
cached row, selection still on row 5. -/
def tvC2x : TableView String :=
  { data_model := { entries := some ["ax"], first := 0, length := 1, filter := "x" },
    table_state := some 5, table_rows_count := 6, search_string := "x" }

/-- Controller with search string foo, three cached rows under filter
foo, selection scrolled to row 2. -/
def tvC8 : TableView String :=
  { data_model := { entries := some ["a", "b", "c"], first := 0, length := 3, filter := "foo" },
    table_state := some 2, table_rows_count := 3, search_string := "foo" }

/-- A store with three rows matching filter fo and failing otherwise. -/
def fnC8 : ListFn String := fun _ _ t =>
  if t = "fo" then Except.ok ["u", "v", "w"] else Except.error ("e")

/-- History view for the router scenario: three cached rows filling the
three visible rows, search string h, selection on row 0. -/
def hC9 : TableView String :=
  { data_model := { entries := some ["a", "b", "c"], first := 0, length := 3, filter := "" },
    table_state := some 0, table_rows_count := 3, search_string := "h" }

/-- Shortcut view for the router scenario: three cached rows, nothing
selected yet. -/
def sC9 : TableView String :=
  { data_model := { entries := some ["x", "y", "z"], first := 0, length := 3, filter := "" },
    table_state := none, table_rows_count := 3, search_string := "" }

/-- Router state focused on the history view. -/
def gC9 : Gui String String :=
  { current_view := View.history, history_view := hC9, shortcut_view := sC9,
    view_state := true }

/-! Helper lemmas, shared by several claim proofs. -/

/-- Inversion for a successful checked subtraction. -/
theorem checkedSub_eq_some {a b c : Nat} (h : checkedSub a b = some c) :
    b ≤ a ∧ c = a - b := by
  unfold checkedSub at h
  split at h
  · rename_i hba
    cases h
    exact ⟨hba, rfl⟩
  · exact absurd h (by simp)

/-- When the request is not a subset, `update_into_subset` leaves the
cache unchanged and reports `false`. -/
theorem update_into_subset_of_not_subset {T : Type} (m : DataViewModel T)
    (f l : Nat) (t : String) (h : m.is_a_subset_of f l t = false) :
    m.update_into_subset f l t = some (m, false) := by
  unfold DataViewModel.update_into_subset
  rw [h]
  simp

/-- Unfolding of the subset test into its four conjuncts. -/
theorem subset_eq_true_iff {T : Type} (m : DataViewModel T) (f l : Nat)
    (t : String) :
    m.is_a_subset_of f l t = true ↔
      m.entries.isSome = true ∧ m.first ≤ f ∧ f + l ≤ m.first + m.length ∧
        m.filter = t := by
  simp [DataViewModel.is_a_subset_of, Bool.and_eq_true, decide_eq_true_eq,
    beq_iff_eq, and_assoc]

/-- When the request starts exactly at the cached first index and is a
subset, `update_into_subset` narrows to the length-`l` prefix. -/
theorem update_into_subset_self {T : Type} (m : DataViewModel T) (l : Nat)
    (t : String) (es : List T) (hes : m.entries = some es)
    (hlen : l ≤ es.length)
    (hsub : m.is_a_subset_of m.first l t = true) :
    m.update_into_subset m.first l t =
      some ({ m with entries := some (es.take l), first := m.first, length := l },
        true) := by
  unfold DataViewModel.update_into_subset
  rw [hsub, hes]
  simp [checkedSub, checkedSlice, hlen]

/-- When the request starts exactly at the cached first index and is a
subset, `update` narrows without a store call and returns `false`. -/
theorem update_subset_self {T : Type} (listFn : ListFn T)
    (m : DataViewModel T) (l : Nat) (t : String) (force : Bool) (es : List T)
    (hes : m.entries = some es) (hlen : l ≤ es.length)
    (hsub : m.is_a_subset_of m.first l t = true) :
    m.update listFn m.first l t force =
      some ({ m with entries := some (es.take l), first := m.first, length := l },
        false, 0) := by
  unfold DataViewModel.update
  rw [update_into_subset_self m l t es hes hlen hsub]

/-- Equation lemma: when the request is not a subset and the store
answers `Ok es`, `update` reduces to the short-page / accept / clear
decision chain of model.rs lines 125-152. -/
theorem update_fetch_ok_eq {T : Type} (listFn : ListFn T)
    (m : DataViewModel T) (f l : Nat) (t : String) (force : Bool)
    (es : List T)
    (hsub : m.is_a_subset_of f l t = false)
    (hok : listFn f l t = Except.ok es) :
    m.update listFn f l t force =
      (if es.length ≠ l ∧ m.is_a_subset_of f (es.length % U16) t = true then
        some (m, false, 1)
      else if 0 < es.length then
        some ({ entries := some es, first := f, length := es.length % U16, filter := t },
          true, 1)
      else if force = true then
        some ({ m with entries := none, first := 0, length := 0 }, true, 1)
      else
        some (m, false, 1)) := by
  unfold DataViewModel.update
  rw [update_into_subset_of_not_subset m f l t hsub, hok]

/-- Equation lemma: when the request is a subset and entries are cached,
`update` reduces to the narrowing path (offset subtraction, slice),
returning `changed = false` with zero store calls when neither panics. -/
theorem update_subset_eq {T : Type} (listFn : ListFn T) (m : DataViewModel T)
    (f l : Nat) (t : String) (force : Bool)
    (hs : m.is_a_subset_of f l t = true) (es : List T)
    (hes : m.entries = some es) :
    m.update listFn f l t force =
      ((checkedSub m.first f).bind fun offset =>
        (checkedSlice es offset l).map fun s =>
          ({ m with entries := some s, first := f, length := l }, false, 0)) := by
  unfold DataViewModel.update DataViewModel.update_into_subset
  rw [hs, hes]
  simp only [eq_self_iff_true, if_true]
  cases checkedSub m.first f with
  | none => rfl
  | some offset =>
    simp only [Option.some_bind]
    cases checkedSlice es offset l with
    | none => rfl
    | some s => rfl

/-! The claim theorems. -/

/-- C1: the spec says that on a cache holding entries a,b,c at window
0..3 (empty filter), `update(1,2,"",false)` narrows the cache to entries
b,c at window 1..3 and returns `false` with no store call.  The code
instead computes the slice offset as `self.first - first` (0 - 1, a usize
underflow) and slices `entries[offset..length]`, so the call panics:
the request is a subset, yet `update` diverges (`none`) instead of
narrowing. -/
theorem c1_subset_narrow_panics :
    mC1.is_a_subset_of 1 2 "" = true ∧ mC1.update fnEmpty 1 2 "" false = none := by
  decide

/-- C3: the spec says every in-window request under an identical filter
makes zero store calls and returns `false`.  On the cache p,q,r,s at
window 4..8 (filter f), the in-window request `update(5,2,"f",false)`
panics through the same reversed-offset subtraction (4 - 5) before any
value is returned: the subset test holds, yet `update` diverges. -/
theorem c3_subset_request_panics :
    mC3.is_a_subset_of 5 2 "f" = true ∧ mC3.update fnFail 5 2 "f" false = none := by
  decide

/-- C4: if the store is called (the request is not a subset), succeeds,
and returns fewer entries than requested, while the previous cache
already covers the returned prefix under the same filter, then `update`
leaves the cache untouched and returns `changed = false`. -/
theorem c4_short_page_stable {T : Type} (listFn : ListFn T)
    (m : DataViewModel T) (f l : Nat) (t : String) (force : Bool)
    (es : List T)
    (hsub : m.is_a_subset_of f l t = false)
    (hok : listFn f l t = Except.ok es)
    (hkl : es.length < l) (hl : l < U16)
    (hsub2 : m.is_a_subset_of f es.length t = true) :
    m.update listFn f l t force = some (m, false, 1) := by
  unfold DataViewModel.update
  rw [update_into_subset_of_not_subset m f l t hsub, hok]
  have hmod : es.length % U16 = es.length := Nat.mod_eq_of_lt (lt_trans hkl hl)
  simp [hmod, hsub2, Nat.ne_of_lt hkl]

/-- Witness for C4: a two-entry cache, a request for three rows answered
by the same two rows, with any `force`; the cache is untouched and the
result is `false` after exactly one store call. -/
theorem c4_short_page_stable_witness :
    mC4.update fnC4 0 3 "" false = some (mC4, false, 1) :=
  c4_short_page_stable fnC4 mC4 0 3 "" false ["a", "b"]
    (by decide) rfl (by decide) (by decide) (by decide)

/-- C6: if the store is called (the request is not a subset) and fails,
`update` leaves the cache exactly as it was and returns
`changed = false`; the failure never escapes `update` (the result is a
normal return, not a panic). -/
theorem c6_store_error_keeps_cache {T : Type} (listFn : ListFn T)
    (m : DataViewModel T) (f l : Nat) (t : String) (force : Bool)
    (e : String)
    (hsub : m.is_a_subset_of f l t = false)
    (herr : listFn f l t = Except.error e) :
    m.update listFn f l t force = some (m, false, 1) := by
  unfold DataViewModel.update
  rw [update_into_subset_of_not_subset m f l t hsub, herr]

/-- Witness for C6: the empty cache with an always-failing store; the
forced request returns `false` and leaves the cache untouched. -/
theorem c6_store_error_keeps_cache_witness :
    mC6.update fnFail 0 5 "" true = some (mC6, false, 1) :=
  c6_store_error_keeps_cache fnFail mC6 0 5 "" true ("boom")
    (by decide) rfl

/-- C5 counterexample: two concrete forced calls whose fetch comes back
empty refute the claim.  First, on the one-entry cache `mC5a`,
`update(0,2,"",force=true)` fetches an empty page but is absorbed by the
short-page subset test: the cache is NOT cleared and the call returns
`false`, not `true`.  Second, on `mC5b` (cached filter a),
`update(0,1,"b",force=true)` does clear the cache, but the stored filter
stays a — it does not become the requested filter b. -/
theorem c5_force_empty_cex :
    mC5a.update fnEmpty 0 2 "" true = some (mC5a, false, 1) ∧
    mC5b.update fnEmpty 0 1 "b" true =
      some ({ entries := none, first := 0, length := 0, filter := "a" }, true, 1) := by
  decide

/-- C5 as amended: when `update` calls the store (the request is not a
subset) and the fetch succeeds with an empty result, then (1) with
`force` unset the cache is untouched and the call returns `false`;
(2) with `force` set but the previous cache already covering position
`first` under the requested filter (and `length ≠ 0`), the short-page
subset test wins: the cache is untouched and the call returns `false`;
(3) with `force` set otherwise, the cache is cleared to
`entries = none, first = 0, length = 0` with the stored filter left
unchanged, and the call returns `true`. -/
theorem c5_empty_result_amended {T : Type} (listFn : ListFn T)
    (m : DataViewModel T) (f l : Nat) (t : String)
    (hsub : m.is_a_subset_of f l t = false)
    (hok : listFn f l t = Except.ok ([] : List T)) :
    m.update listFn f l t false = some (m, false, 1)
    ∧ (l ≠ 0 → m.is_a_subset_of f 0 t = true →
        m.update listFn f l t true = some (m, false, 1))
    ∧ (l = 0 ∨ m.is_a_subset_of f 0 t = false →
        m.update listFn f l t true =
          some ({ m with entries := none, first := 0, length := 0 }, true, 1)) := by
  refine ⟨?_, ?_, ?_⟩
  · rw [update_fetch_ok_eq listFn m f l t false [] hsub hok]
    simp only [List.length_nil, Nat.zero_mod]
    split
    · rfl
    · norm_num
  · intro hl0 hcov
    rw [update_fetch_ok_eq listFn m f l t true [] hsub hok]
    simp only [List.length_nil, Nat.zero_mod]
    rw [if_pos ⟨Ne.symm hl0, hcov⟩]
  · intro hcase
    rw [update_fetch_ok_eq listFn m f l t true [] hsub hok]
    simp only [List.length_nil, Nat.zero_mod]
    have hcond : ¬ ((0 : Nat) ≠ l ∧ m.is_a_subset_of f 0 t = true) := by
      rcases hcase with h0 | hfalse
      · intro hc
        exact hc.1 (Eq.symm h0)
      · intro hc
        rw [hfalse] at hc
        exact Bool.false_ne_true hc.2
    rw [if_neg hcond]
    norm_num

/-- Witness for C5 as amended: on the one-entry cache `mC5a` with an
empty fetch the unforced call and (since the cache covers position 0
under the empty filter) the forced call both leave the cache untouched
and return `false`. -/
theorem c5_empty_result_amended_witness :
    mC5a.update fnEmpty 0 2 "" false = some (mC5a, false, 1)
    ∧ mC5a.update fnEmpty 0 2 "" true = some (mC5a, false, 1) :=
  ⟨(c5_empty_result_amended fnEmpty mC5a 0 2 "" (by decide) rfl).1,
   (c5_empty_result_amended fnEmpty mC5a 0 2 "" (by decide) rfl).2.1
     (by decide) (by decide)⟩

/-- C10 counterexample: starting from the freshly constructed empty
cache, a forced request answered by an empty page succeeds (the store
returns Ok) and returns `changed = true`, leaving the state equal to
the starting state — so the immediately repeated identical call (second
conjunct, chained on the first call's resulting state) again returns
`changed = true`, not `false`. -/
theorem c10_force_empty_repeats_cex :
    (DataViewModel.new String).update fnEmpty 0 5 "" true =
      some (DataViewModel.new String, true, 1)
    ∧ ((DataViewModel.new String).update fnEmpty 0 5 "" true).bind
        (fun r => r.1.update fnEmpty 0 5 "" true) =
      some (DataViewModel.new String, true, 1) := by
  decide

/-- C10 as amended: if a call to `update` succeeds — it returns without
panicking, and it either made no store call or its store call returned
Ok with a result that is not both empty and forced (the forced clear of
an empty result reports `changed = true` on every repetition) — then an
immediately repeated identical call returns `changed = false`.
`l < U16` reflects that the requested length is a u16 in the source. -/
theorem c10_idempotence_amended {T : Type} (listFn : ListFn T)
    (m m₁ : DataViewModel T) (f l : Nat) (t : String) (force : Bool)
    (c : Bool) (n : Nat)
    (hl : l < U16)
    (h1 : m.update listFn f l t force = some (m₁, c, n))
    (hsucc : n = 0 ∨ ∃ es, listFn f l t = Except.ok es ∧ (force = true → es ≠ [])) :
    Option.map (fun r => r.2.1) (m₁.update listFn f l t force) = some false := by
  rcases (Bool.eq_false_or_eq_true (m.is_a_subset_of f l t)).symm with hs | hs
  · -- the request was not a subset: the store was called
    cases hlf : listFn f l t with
    | error e =>
      have herr2 : m.update listFn f l t force = some (m, false, 1) := by
        unfold DataViewModel.update
        rw [update_into_subset_of_not_subset m f l t hs, hlf]
      rw [herr2] at h1
      simp only [Option.some.injEq, Prod.mk.injEq] at h1
      obtain ⟨hm, hc, hn⟩ := h1
      rcases hsucc with hn0 | ⟨es2, hok2, _⟩
      · omega
      · rw [hlf] at hok2
        exact absurd hok2 (by simp)
    | ok es =>
      rw [update_fetch_ok_eq listFn m f l t force es hs hlf] at h1
      by_cases hguard : es.length ≠ l ∧ m.is_a_subset_of f (es.length % U16) t = true
      · -- short page already covered: the cache was untouched
        rw [if_pos hguard] at h1
        simp only [Option.some.injEq, Prod.mk.injEq] at h1
        obtain ⟨hm, hc, hn⟩ := h1
        subst hm
        rw [update_fetch_ok_eq listFn m f l t force es hs hlf, if_pos hguard]
        rfl
      · rw [if_neg hguard] at h1
        by_cases hk : 0 < es.length
        · -- the fetch was accepted wholesale
          rw [if_pos hk] at h1
          simp only [Option.some.injEq, Prod.mk.injEq] at h1
          obtain ⟨hm, hc, hn⟩ := h1
          have hes1 : m₁.entries = some es := by rw [← hm]
          have hf1 : m₁.first = f := by rw [← hm]
          have hlen1 : m₁.length = es.length % U16 := by rw [← hm]
          have hfil1 : m₁.filter = t := by rw [← hm]
          by_cases hlk : l ≤ es.length % U16
          · -- the repeated request is now a subset starting at m₁.first
            have hsub1 : m₁.is_a_subset_of m₁.first l t = true := by
              rw [subset_eq_true_iff]
              refine ⟨by rw [hes1]; rfl, le_refl _, ?_, hfil1⟩
              rw [hlen1]
              omega
            have hlen2 : l ≤ es.length := le_trans hlk (Nat.mod_le _ _)
            have h2 := update_subset_self listFn m₁ l t force es hes1 hlen2 hsub1
            rw [hf1] at h2
            rw [h2]
            rfl
          · -- the repeated request refetches and hits the subset test
            have hsub1 : m₁.is_a_subset_of f l t = false := by
              rw [Bool.eq_false_iff]
              intro hh
              obtain ⟨_, _, h3, _⟩ := (subset_eq_true_iff m₁ f l t).mp hh
              rw [hf1, hlen1] at h3
              exact hlk (by omega)
            have hkl : es.length ≠ l := by
              intro he
              exact hlk (by rw [he, Nat.mod_eq_of_lt hl])
            have hsub2 : m₁.is_a_subset_of f (es.length % U16) t = true := by
              rw [subset_eq_true_iff]
              refine ⟨by rw [hes1]; rfl, le_of_eq hf1, ?_, hfil1⟩
              rw [hf1, hlen1]
            rw [update_fetch_ok_eq listFn m₁ f l t force es hsub1 hlf,
              if_pos ⟨hkl, hsub2⟩]
            rfl
        · -- empty fetch
          rw [if_neg hk] at h1
          have hke : es = [] := List.length_eq_zero.mp (by omega)
          by_cases hforce : force = true
          · rcases hsucc with hn0 | ⟨es2, hok2, hne2⟩
            · rw [if_pos hforce] at h1
              simp only [Option.some.injEq, Prod.mk.injEq] at h1
              omega
            · rw [hlf] at hok2
              simp only [Except.ok.injEq] at hok2
              subst hok2
              exact absurd hke (hne2 hforce)
          · have hf0 : force = false := by
              cases force
              · rfl
              · exact absurd rfl hforce
            subst hf0
            rw [if_neg Bool.false_ne_true] at h1
            simp only [Option.some.injEq, Prod.mk.injEq] at h1
            obtain ⟨hm, hc, hn⟩ := h1
            subst hm
            rw [update_fetch_ok_eq listFn m f l t false es hs hlf,
              if_neg hguard, if_neg hk, if_neg Bool.false_ne_true]
            rfl
  · -- the request was a subset: the first call narrowed without a panic
    obtain ⟨hsome, hmf, hfl, hfil⟩ := (subset_eq_true_iff m f l t).mp hs
    obtain ⟨es, hes⟩ := Option.isSome_iff_exists.mp hsome
    rw [update_subset_eq listFn m f l t force hs es hes] at h1
    rcases Nat.lt_or_ge m.first f with hlt | hge
    · rw [show checkedSub m.first f = none from by
        simp only [checkedSub, if_neg (by omega : ¬ f ≤ m.first)]] at h1
      exact absurd h1 (by simp)
    · have hcs : checkedSub m.first f = some (m.first - f) := by
        simp [checkedSub, hge]
      rw [hcs, show m.first - f = 0 from by omega] at h1
      simp only [Option.some_bind] at h1
      by_cases hlen : l ≤ es.length
      · have hslice : checkedSlice es 0 l = some (es.take l) := by
          simp [checkedSlice, hlen]
        rw [hslice] at h1
        simp only [Option.map_some', Option.some.injEq, Prod.mk.injEq] at h1
        obtain ⟨hm, hc, hn⟩ := h1
        have hes1 : m₁.entries = some (es.take l) := by rw [← hm]
        have hf1 : m₁.first = f := by rw [← hm]
        have hlt1 : m₁.length = l := by rw [← hm]
        have hfil1 : m₁.filter = t := by
          rw [← hm]
          exact hfil
        have hsub1 : m₁.is_a_subset_of m₁.first l t = true := by
          rw [subset_eq_true_iff]
          refine ⟨by rw [hes1]; rfl, le_refl _, ?_, hfil1⟩
          rw [hlt1]
        have hlen1 : l ≤ (es.take l).length := by
          rw [List.length_take]
          omega
        have h2 := update_subset_self listFn m₁ l t force (es.take l) hes1 hlen1 hsub1
        rw [hf1] at h2
        rw [h2]
        rfl
      · have hslice : checkedSlice es 0 l = none := by
          simp [checkedSlice, hlen]
        rw [hslice] at h1
        exact absurd h1 (by simp)

/-- Witness for C10 as amended: on the scenario-A cache with the store
answering the same three rows, `update(0,3,"",false)` reuses the cache
(narrowing to itself, zero store calls, `changed = false`) and the
repeated identical call again returns `changed = false`. -/
theorem c10_idempotence_amended_witness :
    Option.map (fun r => r.2.1) (mC1.update fnEmpty 0 3 "" false) = some false :=
  c10_idempotence_amended fnEmpty mC1 mC1 0 3 "" false false 0
    (by decide) (by decide) (Or.inl rfl)

/-- C7 counterexample: on `tvC7` the selection (row 2) sits on the last
cached row (`cachedLength - 1 = 2`), so the claim demands an
`update_by_offset` call; but the code compares the selection against
`table_rows_count - 1 = 9`, so a plain Down performs no store call (the
returned flag is `false`) and merely re-clamps the selection to 2. -/
theorem c7_down_trigger_cex :
    tvC7.data_model.length = 3 ∧ tvC7.table_state = some 2 ∧
    tvC7.handle_down fnFail false false = some (tvC7, false) := by
  decide

/-- C7 as amended: on Down (step 1) or Down+modifier (step 10), when the
cache is non-empty and a row `r` is selected, `update_by_offset(+step)`
is called if and only if `r = visibleRows - 1` (the bottom of the
viewport, not of the cached window), and the selection then becomes
`min(r + step, cachedLength' - 1)` where `cachedLength'` is the cache
length after any such call. -/
theorem c7_down_amended {T : Type} (listFn : ListFn T) (jump : Bool)
    (tv tv' : TableView T) (r : Nat) (called : Bool)
    (hr : tv.table_state = some r)
    (es : List T) (hes : tv.data_model.entries = some es)
    (h : tv.handle_down listFn jump false = some (tv', called)) :
    called = decide (r = tv.table_rows_count - 1)
    ∧ tv'.table_state =
        some (min (r + (if jump then JUMP_OFFSET else 1)) (tv'.data_model.length - 1)) := by
  unfold TableView.handle_down at h
  rw [hes, hr] at h
  simp only [] at h
  cases hq : checkedSub tv.table_rows_count 1 with
  | none =>
    rw [hq] at h
    simp at h
  | some rm1 =>
    obtain ⟨h1r, hrm⟩ := checkedSub_eq_some hq
    rw [hq] at h
    simp only [] at h
    by_cases hcond : r = rm1 ∨ false = true
    · rw [if_pos hcond] at h
      cases hu : tv.data_model.update_to_offset listFn
          ((if false = true then tv.table_rows_count else
            if jump then JUMP_OFFSET else 1 : Nat) : Int)
          tv.table_rows_count tv.search_string with
      | none =>
        rw [hu] at h
        simp at h
      | some dmr =>
        rw [hu] at h
        simp only [Bool.false_eq_true, if_false, or_false] at h
        by_cases hclamp : dmr.1.length ≤ r + (if jump = true then JUMP_OFFSET else 1)
        · rw [if_pos hclamp] at h
          cases hq2 : checkedSub dmr.1.length 1 with
          | none =>
            rw [hq2] at h
            simp at h
          | some nx =>
            obtain ⟨hd1, hnx⟩ := checkedSub_eq_some hq2
            rw [hq2] at h
            simp only [Option.some.injEq, Prod.mk.injEq] at h
            obtain ⟨htv, hcalled⟩ := h
            subst hrm
            constructor
            · rw [← hcalled]
            · rw [← htv]
              simp only []
              rw [hnx, Nat.min_eq_right (by omega)]
        · rw [if_neg hclamp] at h
          simp only [Option.some.injEq, Prod.mk.injEq] at h
          obtain ⟨htv, hcalled⟩ := h
          subst hrm
          constructor
          · rw [← hcalled]
          · rw [← htv]
            simp only []
            rw [Nat.min_eq_left (by omega)]
    · rw [if_neg hcond] at h
      simp only [Bool.false_eq_true, if_false, or_false] at h
      by_cases hclamp : tv.data_model.length ≤ r + (if jump = true then JUMP_OFFSET else 1)
      · rw [if_pos hclamp] at h
        cases hq2 : checkedSub tv.data_model.length 1 with
        | none =>
          rw [hq2] at h
          simp at h
        | some nx =>
          obtain ⟨hd1, hnx⟩ := checkedSub_eq_some hq2
          rw [hq2] at h
          simp only [Option.some.injEq, Prod.mk.injEq] at h
          obtain ⟨htv, hcalled⟩ := h
          subst hrm
          constructor
          · rw [← hcalled]
          · rw [← htv]
            simp only []
            rw [hnx, Nat.min_eq_right (by omega)]
      · rw [if_neg hclamp] at h
        simp only [Option.some.injEq, Prod.mk.injEq] at h
        obtain ⟨htv, hcalled⟩ := h
        subst hrm
        constructor
        · rw [← hcalled]
        · rw [← htv]
          simp only []
          rw [Nat.min_eq_left (by omega)]

/-- C2: the spec guarantees that after any transition the selection lies
in `[0, max(0, cachedLength-1)]` and that Enter never errors.  From
`tvC2` (selection 5, six cached rows), typing the character x shrinks the
cache to a single row but leaves the selection at 5 — outside
`[0, 0]` — and the following Enter transition indexes `entries[5]` out
of bounds and panics (`none`) instead of committing or quitting. -/
theorem c2_selection_invariant_broken :
    TableView.step fnC2 (fun s => s) (KeyEvent.char 'x' false) tvC2 true =
      some (tvC2x, true, none)
    ∧ tvC2x.data_model.length = 1 ∧ tvC2x.table_state = some 5
    ∧ TableView.step fnC2 (fun s => s) KeyEvent.enter tvC2x true = none := by
  decide

/-- C8: the spec says a search edit forces
`update(0, visibleRows, newSearch, force=true)` AND resets the selection
to 0.  From `tvC8` (search foo, selection 2), Backspace produces search
fo and does force the refetch (the cache is replaced by the three rows
matching fo), but the selection is left at 2, not reset to 0. -/
theorem c8_search_edit_keeps_selection :
    TableView.step fnC8 (fun s => s) KeyEvent.backspace tvC8 true =
      some ({ data_model :=
                { entries := some ["u", "v", "w"], first := 0, length := 3, filter := "fo" },
              table_state := some 2, table_rows_count := 3, search_string := "fo" },
        true, none) := by
  decide

/-- Witness for C7 as amended: on `tvC7w` (selection 0, five visible
rows) a plain Down performs no store call (`0 ≠ 4`) and moves the
selection to `min(0+1, 3-1) = 1`. -/
theorem c7_down_amended_witness :
    (false = decide ((0 : Nat) = tvC7w.table_rows_count - 1))
    ∧ ({ tvC7w with table_state := some 1 } : TableView String).table_state =
        some (min (0 + (if false then JUMP_OFFSET else 1))
          (({ tvC7w with table_state := some 1 } : TableView String).data_model.length - 1)) :=
  c7_down_amended fnFail false tvC7w { tvC7w with table_state := some 1 } 0 false
    rfl ["a", "b", "c"] rfl (by decide)

/-- C9 counterexample: from `gC9` (focus on history, selection moved to
row 1 by a Down), Tab hands focus to shortcuts and a second Tab returns
to history — but `run` re-selects cell (0,0) on every entry, so the
history view comes back with selection 0, not the selection 1 it was
left with.  The first conjunct shows the history view's state as left
(selection 1); the second shows the router's final state after
Down, Tab, Tab, Esc has selection 0. -/
theorem c9_reentry_resets_selection_cex :
    TableView.run 4 fnFail (fun x => x)
        [KeyEvent.down false, KeyEvent.tab, KeyEvent.tab, KeyEvent.esc] hC9 true =
      some ({ hC9 with table_state := some 1 }, true,
        [KeyEvent.tab, KeyEvent.esc], GuiResult.next)
    ∧ Gui.runFuel 4 fnFail (fun x => x) fnFail (fun x => x) 3
        [KeyEvent.down false, KeyEvent.tab, KeyEvent.tab, KeyEvent.esc] gC9 =
      some ({ gC9 with history_view := { hC9 with table_state := some 0 },
                       shortcut_view := { sC9 with table_state := some 0 } }, none) := by
  decide

/-- C9 as amended: Tab advances focus cyclically and the unfocused
controller keeps its cache and search string untouched; but on re-entry
the selection is reset to row 0 (and the viewport refresh is a no-op
only when the cached window length equals the viewport row budget, as
hypothesised here).  Tab, Tab, Esc from the history view ends the
session focused on history with its cache and search exactly as before
and selection 0. -/
theorem c9_next_keeps_cache_amended {H S : Type} (mainH : Nat)
    (histFn : ListFn H) (histStr : H → String) (scFn : ListFn S)
    (scStr : S → String) (h : TableView H) (s : TableView S) (vs : Bool)
    (hm : 1 ≤ mainH)
    (hH : h.data_model.length = mainH - 1)
    (hS : s.data_model.length = mainH - 1) :
    Gui.runFuel mainH histFn histStr scFn scStr 3
        [KeyEvent.tab, KeyEvent.tab, KeyEvent.esc]
        { current_view := View.history, history_view := h, shortcut_view := s,
          view_state := vs } =
      some ({ current_view := View.history,
              history_view := { h with table_state := some 0, table_rows_count := mainH - 1 },
              shortcut_view := { s with table_state := some 0, table_rows_count := mainH - 1 },
              view_state := vs }, none) := by
  simp [Gui.runFuel, TableView.run, TableView.draw, TableView.runLoop,
    TableView.step, checkedSub, hm, hH, hS]

/-- Witness for C9 as amended: from `gC9` with table area height 4
(three visible rows, matching both cached windows), Tab, Tab, Esc ends
with the history cache and search as before and selection 0. -/
theorem c9_next_keeps_cache_amended_witness :
    Gui.runFuel 4 fnFail (fun x => x) fnFail (fun x => x) 3
        [KeyEvent.tab, KeyEvent.tab, KeyEvent.esc] gC9 =
      some ({ gC9 with
              history_view := { hC9 with table_state := some 0, table_rows_count := 3 },
              shortcut_view := { sC9 with table_state := some 0, table_rows_count := 3 } },
        none) :=
  c9_next_keeps_cache_amended 4 fnFail (fun x => x) fnFail (fun x => x) hC9 sC9 true
    (by decide) (by decide) (by decide)

end Cdir
